import Mathlib

/-!
Shallow embedding of the edge-ai fleet-provisioning and registry-cleanup code:
the MQTT correlated exchange and orchestrator of edge-provision.py, the
IoTCleaner of cleanup.py, and the pre-provisioning hook of
pre_provisioning_hook.py, together with theorems settling the spec claims.
-/

namespace EdgeAI

/-! ## Strings: the Python substring test used by the message callback -/

/-- Whether the character list begins with the given list. -/
def hasPre : List Char → List Char → Bool
  | _, [] => true
  | [], _ :: _ => false
  | c :: cs, d :: ds => c == d && hasPre cs ds

/-- Whether the second character list occurs contiguously in the first. -/
def hasSub : List Char → List Char → Bool
  | [], sub => sub.isEmpty
  | c :: cs, sub => hasPre (c :: cs) sub || hasSub cs sub

/-- Python substring membership test, as in the topic checks of the callback. -/
def strContains (s sub : String) : Bool := hasSub s.toList sub.toList

/-! ## FleetProvisioner: the correlated exchange (edge-provision.py) -/

/-- A decoded JSON reply object, modelled as a flat string-valued field map
(the code reads only string fields of its reply objects). -/
structure Payload where
  fields : List (String × String)
deriving DecidableEq

/-- Python dict get with default, as in the errorMessage extraction. -/
def Payload.getD (p : Payload) (k dflt : String) : String :=
  match p.fields.lookup k with
  | some v => v
  | none => dflt

/-- Abstraction of Python str applied to the decoded payload dict, used only
as the default reject reason when no errorMessage field is present. -/
def pyStr (p : Payload) : String :=
  String.intercalate ", " (p.fields.map (fun kv => kv.1 ++ ": " ++ kv.2))

/-- The mutable per-exchange state of FleetProvisioner: the recorded response,
the recorded error, and whether the completion event has fired. -/
structure ExchState where
  response : Option Payload
  error : Option String
  eventSet : Bool
deriving DecidableEq

/-- State at the start of an exchange: response and error cleared, event
cleared (lines 154-156 and 191-193 of edge-provision.py). -/
def initExchState : ExchState := ⟨none, none, false⟩

/-- FleetProvisioner on message callback (edge-provision.py lines 114-126):
decode the payload; on an accepted topic record it as the response, on a
rejected topic record the errorMessage field (default: the rendered payload)
as the error, on a decode failure record the failure as the error; in every
case fire the completion event. -/
def onMessage (s : ExchState) (topic : String) (decoded : Option Payload) : ExchState :=
  match decoded with
  | none => { s with error := some "json decode failure", eventSet := true }
  | some p =>
    if strContains topic "/accepted" then
      { s with response := some p, eventSet := true }
    else if strContains topic "/rejected" then
      { s with error := some (Payload.getD p "errorMessage" (pyStr p)), eventSet := true }
    else
      { s with eventSet := true }

/-- One reply delivery: seconds after the publish at which the broker delivers
it, the topic it arrives on, and its decoded JSON (none when undecodable). -/
structure Delivery where
  time : Nat
  topic : String
  decoded : Option Payload
deriving DecidableEq

/-- Result of one correlated exchange as surfaced to the caller. -/
inductive ExchResult
  | ok (p : Option Payload)
  | errRejected (reason : String)
  | errTimeout
deriving DecidableEq

/-- The wait-and-check logic shared by create_certificate_from_csr
(lines 173-180) and register_thing (lines 218-225): wait at most 30 s for the
completion event; raise TimeoutError when it never fires in time, raise
RuntimeError with the recorded error when the callback recorded one, and
otherwise return the recorded response. -/
def exchangeOutcome (reply : Option Delivery) : ExchResult :=
  match reply with
  | none => ExchResult.errTimeout
  | some d =>
    if 30 ≤ d.time then ExchResult.errTimeout
    else
      let s := onMessage initExchState d.topic d.decoded
      match s.error with
      | some r => ExchResult.errRejected r
      | none => ExchResult.ok s.response

/-- Seconds the calling flow spends blocked in the event wait with its 30 s
deadline. -/
def waitDuration (reply : Option Delivery) : Nat :=
  match reply with
  | none => 30
  | some d => min d.time 30

/-- Request topic of the certificate-issuance exchange (line 171). -/
def csrBaseTopic : String := "$aws/certificates/create-from-csr/json"

/-- Request topic of the registration exchange (line 202). -/
def regBaseTopic (template : String) : String :=
  "$aws/provisioning-templates/" ++ template ++ "/provision/json"

/-- The accepted reply topic of a request topic. -/
def acceptedTopic (base : String) : String := base ++ "/accepted"

/-- The rejected reply topic of a request topic. -/
def rejectedTopic (base : String) : String := base ++ "/rejected"

/-! ## The client action sequence of one exchange (for the ordering claims) -/

/-- Observable client-side actions of one exchange, in program order. An
acknowledgement wait (as paho offers through its subscribe callback) is in the
vocabulary so that its absence from the actual traces can be stated. -/
inductive MqttAction
  | connectBroker (endpoint : String) (port : Nat)
  | sleepMs (ms : Nat)
  | subscribe (topic : String)
  | awaitSubAck (timeoutMs : Nat)
  | publish (topic : String)
  | waitReply (timeoutS : Nat)
  | disconnectBroker
deriving DecidableEq

/-- Action sequence of create_certificate_from_csr (lines 149-184): connect,
sleep 1 s, subscribe to both reply topics, sleep 0.5 s, publish the request,
wait up to 30 s for the reply, disconnect. -/
def createCertActions (endpoint : String) : List MqttAction :=
  [ MqttAction.connectBroker endpoint 8883,
    MqttAction.sleepMs 1000,
    MqttAction.subscribe (acceptedTopic csrBaseTopic),
    MqttAction.subscribe (rejectedTopic csrBaseTopic),
    MqttAction.sleepMs 500,
    MqttAction.publish csrBaseTopic,
    MqttAction.waitReply 30,
    MqttAction.disconnectBroker ]

/-- Action sequence of register_thing (lines 186-229), identical in shape with
the template-specific topics. -/
def registerThingActions (endpoint template : String) : List MqttAction :=
  [ MqttAction.connectBroker endpoint 8883,
    MqttAction.sleepMs 1000,
    MqttAction.subscribe (acceptedTopic (regBaseTopic template)),
    MqttAction.subscribe (rejectedTopic (regBaseTopic template)),
    MqttAction.sleepMs 500,
    MqttAction.publish (regBaseTopic template),
    MqttAction.waitReply 30,
    MqttAction.disconnectBroker ]

/-- Whether an action is a subscription-acknowledgement wait. -/
def isAwaitSubAck : MqttAction → Bool
  | MqttAction.awaitSubAck _ => true
  | _ => false

/-- Whether an action is a publish. -/
def isPublish : MqttAction → Bool
  | MqttAction.publish _ => true
  | _ => false

/-- Whether an action is a subscribe call. -/
def isSubscribe : MqttAction → Bool
  | MqttAction.subscribe _ => true
  | _ => false

/-- Scan keeping track of whether an acknowledgement wait has happened yet;
true when every publish is preceded by one. -/
def ackScan : Bool → List MqttAction → Bool
  | _, [] => true
  | seen, a :: rest =>
    if isPublish a then seen && ackScan seen rest
    else ackScan (seen || isAwaitSubAck a) rest

/-- Formalisation of the spec sentence behind C9: in the trace, every publish
happens only after a wait for the broker subscription acknowledgements has
completed. -/
def publishOnlyAfterAckWait (acts : List MqttAction) : Bool := ackScan false acts

/-- The actions issued before the first publish of the trace. -/
def beforeFirstPublish (acts : List MqttAction) : List MqttAction :=
  acts.takeWhile (fun a => !(isPublish a))

/-! ## The provisioning orchestrator (provision_device and main) -/

/-- Outcome of the certificate-issuance exchange as seen by the orchestrator:
either the fields it extracts from the accepted payload, or the exception the
exchange raised. -/
inductive CertOutcome
  | accepted (certificatePem certificateId ownershipToken : String)
  | rejected (reason : String)
  | timedOut
  | transportFailure (reason : String)
deriving DecidableEq

/-- Outcome of the registration exchange as seen by the orchestrator. -/
inductive RegOutcome
  | accepted (thingName : String)
  | rejected (reason : String)
  | timedOut
  | transportFailure (reason : String)
deriving DecidableEq

/-- Whether the certificate exchange returned an accepted payload. -/
def CertOutcome.isAccepted : CertOutcome → Bool
  | CertOutcome.accepted _ _ _ => true
  | _ => false

/-- Whether the registration exchange returned an accepted payload. -/
def RegOutcome.isAccepted : RegOutcome → Bool
  | RegOutcome.accepted _ => true
  | _ => false

/-- External state and exchange outcomes a run of provision_device observes. -/
structure ProvisionEnv where
  configExists : Bool
  claimConfigExists : Bool
  endpoint : String
  templateName : String
  serial : String
  mac : String
  certOutcome : CertOutcome
  regOutcome : RegOutcome

/-- Registry- and filesystem-affecting effects of one orchestrator run;
an mqttExchange effect stands for a whole correlated exchange, its publish
included. -/
inductive ProvEffect
  | ensureIotDir
  | downloadRootCa
  | generateKeyAndCsr (thingName : String)
  | mqttExchange (publishTopic : String)
  | writeFile (path : String)
  | chmodFile (path : String)
deriving DecidableEq

/-- Result of provision_device: its return value, or the exception that left
it uncaught. -/
inductive ProvResult
  | ok (b : Bool)
  | exn (msg : String)
deriving DecidableEq

/-- Directory holding the device IoT state. -/
def iotDir : String := "/data/config/aws-iot"

/-- Path of the local ProvisioningConfig. -/
def configPath : String := iotDir ++ "/config.json"

/-- Path of the issued device certificate. -/
def certPath : String := iotDir ++ "/device.crt"

/-- provision_device (edge-provision.py lines 232-306): short-circuit when
config.json exists; return False when the claim config is missing; otherwise
ensure the directory, fetch the root CA, generate key and CSR, run the
certificate exchange, save the certificate, run the registration exchange and
finally write config.json. A failing exchange raises and ends the run. -/
def provision_device (env : ProvisionEnv) : ProvResult × List ProvEffect :=
  let thingName := "edge-ai-" ++ env.serial
  if env.configExists then
    (ProvResult.ok true, [])
  else if !env.claimConfigExists then
    (ProvResult.ok false, [])
  else
    let fx0 := [ProvEffect.ensureIotDir, ProvEffect.downloadRootCa,
                ProvEffect.generateKeyAndCsr thingName]
    match env.certOutcome with
    | CertOutcome.timedOut =>
        (ProvResult.exn "No response from Fleet Provisioning",
         fx0 ++ [ProvEffect.mqttExchange csrBaseTopic])
    | CertOutcome.rejected r =>
        (ProvResult.exn ("Fleet Provisioning error: " ++ r),
         fx0 ++ [ProvEffect.mqttExchange csrBaseTopic])
    | CertOutcome.transportFailure r =>
        (ProvResult.exn r, fx0 ++ [ProvEffect.mqttExchange csrBaseTopic])
    | CertOutcome.accepted _pem _certId _token =>
        let fx1 := fx0 ++ [ProvEffect.mqttExchange csrBaseTopic,
                           ProvEffect.writeFile certPath, ProvEffect.chmodFile certPath]
        match env.regOutcome with
        | RegOutcome.timedOut =>
            (ProvResult.exn "No response from RegisterThing",
             fx1 ++ [ProvEffect.mqttExchange (regBaseTopic env.templateName)])
        | RegOutcome.rejected r =>
            (ProvResult.exn ("RegisterThing error: " ++ r),
             fx1 ++ [ProvEffect.mqttExchange (regBaseTopic env.templateName)])
        | RegOutcome.transportFailure r =>
            (ProvResult.exn r,
             fx1 ++ [ProvEffect.mqttExchange (regBaseTopic env.templateName)])
        | RegOutcome.accepted _registeredThing =>
            (ProvResult.ok true,
             fx1 ++ [ProvEffect.mqttExchange (regBaseTopic env.templateName),
                     ProvEffect.writeFile configPath, ProvEffect.chmodFile configPath])

/-- main (lines 309-315): exit code 0 when provision_device returns True,
1 when it returns False or raises. -/
def mainExitCode (env : ProvisionEnv) : Nat :=
  match (provision_device env).1 with
  | ProvResult.ok true => 0
  | ProvResult.ok false => 1
  | ProvResult.exn _ => 1

/-! ## The final config write, at filesystem-step granularity (for C4) -/

/-- Filesystem micro-steps a writer can take at a path. -/
inductive FsWrite
  | openTruncate (path : String)
  | writeData (path : String)
  | closeFile (path : String)
  | renameFile (src dst : String)
deriving DecidableEq

/-- The final persistence step of provision_device (lines 301-303): open
config.json for writing in place, dump the JSON into it, close it. -/
def configWriteSteps : List FsWrite :=
  [ FsWrite.openTruncate configPath,
    FsWrite.writeData configPath,
    FsWrite.closeFile configPath ]

/-- State of the file at a path: absent, half-written (created or truncated
but not yet fully written and closed), or complete. -/
inductive FileView
  | absent
  | halfWritten
  | complete
deriving DecidableEq

/-- Effect of one filesystem micro-step on the file at path p. -/
def stepView (p : String) (v : FileView) : FsWrite → FileView
  | FsWrite.openTruncate q => if q == p then FileView.halfWritten else v
  | FsWrite.writeData q => if q == p then FileView.halfWritten else v
  | FsWrite.closeFile q => if q == p then FileView.complete else v
  | FsWrite.renameFile src dst =>
      if dst == p then FileView.complete
      else if src == p then FileView.absent
      else v

/-- State of the file at path p after running the given micro-steps. -/
def viewAfter (p : String) (init : FileView) (ops : List FsWrite) : FileView :=
  ops.foldl (stepView p) init

/-- Whether a micro-step is a rename. -/
def isRenameStep : FsWrite → Bool
  | FsWrite.renameFile _ _ => true
  | _ => false

/-- Formalisation of the spec sentence behind C4: at no intermediate point of
the write sequence does the file at path p sit in a half-written state. -/
def neverHalfWrittenAt (p : String) (ops : List FsWrite) : Bool :=
  (List.range (ops.length + 1)).all
    (fun n => !(viewAfter p FileView.absent (ops.take n) == FileView.halfWritten))

/-! ## IoTCleaner (cleanup.py) -/

/-- A certificate record as listed by the registry. -/
structure IotCert where
  certificateId : String
  certificateArn : String
  status : String
deriving DecidableEq

/-- Registry state the cleaner scans: thing names of the managed type, the
certificate list, thing-certificate attachments and policy-certificate
attachments. -/
structure IotRegistry where
  things : List String
  certs : List IotCert
  principals : List (String × String)
  policies : List (String × String)
deriving DecidableEq

/-- get_thing_principals (lines 37-43): certificate arns attached to a thing. -/
def get_thing_principals (reg : IotRegistry) (thingName : String) : List String :=
  (reg.principals.filter (fun pr => pr.1 == thingName)).map (fun pr => pr.2)

/-- get_certificate_things (lines 45-51): thing names attached to a
certificate. -/
def get_certificate_things (reg : IotRegistry) (certArn : String) : List String :=
  (reg.principals.filter (fun pr => pr.2 == certArn)).map (fun pr => pr.1)

/-- list_attached_policies (line 61): policy names attached to a certificate. -/
def list_attached_policies (reg : IotRegistry) (certArn : String) : List String :=
  (reg.policies.filter (fun pr => pr.2 == certArn)).map (fun pr => pr.1)

/-- find_orphaned_things (lines 68-75): things with no attached certificate. -/
def find_orphaned_things (reg : IotRegistry) : List String :=
  reg.things.filter (fun t => (get_thing_principals reg t).isEmpty)

/-- find_orphaned_certificates (lines 77-84): certificates attached to no
thing. -/
def find_orphaned_certificates (reg : IotRegistry) : List IotCert :=
  reg.certs.filter (fun c => (get_certificate_things reg c.certificateArn).isEmpty)

/-- find_inactive_certificates (lines 86-88): certificates whose status is
INACTIVE. -/
def find_inactive_certificates (reg : IotRegistry) : List IotCert :=
  reg.certs.filter (fun c => c.status == "INACTIVE")

/-- Registry calls the cleaner issues while deleting, in program order. -/
inductive CleanAction
  | detachThingPrincipal (thingName certArn : String)
  | detachPolicy (policyName certArn : String)
  | updateCertificateStatus (certId newStatus : String)
  | deleteCertificate (certId certArn : String)
  | deleteThing (thingName : String)
deriving DecidableEq

/-- Registry-side effect of one cleaner call. -/
def applyClean (reg : IotRegistry) : CleanAction → IotRegistry
  | CleanAction.detachThingPrincipal t a =>
      { reg with principals := reg.principals.filter (fun pr => !(pr.1 == t && pr.2 == a)) }
  | CleanAction.detachPolicy p a =>
      { reg with policies := reg.policies.filter (fun pr => !(pr.1 == p && pr.2 == a)) }
  | CleanAction.updateCertificateStatus cid st =>
      { reg with certs :=
          reg.certs.map (fun c => if c.certificateId == cid then { c with status := st } else c) }
  | CleanAction.deleteCertificate cid _ =>
      { reg with certs := reg.certs.filter (fun c => !(c.certificateId == cid)) }
  | CleanAction.deleteThing t =>
      { reg with things := reg.things.filter (fun x => !(x == t)) }

/-- Run a call sequence against the registry. -/
def runClean (reg : IotRegistry) (acts : List CleanAction) : IotRegistry :=
  acts.foldl applyClean reg

/-- delete_certificate (lines 53-66): detach the certificate from every
attached thing, detach every attached policy, set it INACTIVE, delete it. -/
def delete_certificate_actions (reg : IotRegistry) (certId certArn : String) :
    List CleanAction :=
  ((get_certificate_things reg certArn).map
      (fun t => CleanAction.detachThingPrincipal t certArn))
  ++ ((list_attached_policies reg certArn).map
      (fun p => CleanAction.detachPolicy p certArn))
  ++ [CleanAction.updateCertificateStatus certId "INACTIVE",
      CleanAction.deleteCertificate certId certArn]

/-- cleanup_thing (lines 90-95): detach every attached certificate from the
thing, then delete the thing. -/
def cleanup_thing_actions (reg : IotRegistry) (thingName : String) : List CleanAction :=
  ((get_thing_principals reg thingName).map
      (fun a => CleanAction.detachThingPrincipal thingName a))
  ++ [CleanAction.deleteThing thingName]

/-- Whether a cleaner call is a certificate deletion. -/
def isDeleteCertAction : CleanAction → Bool
  | CleanAction.deleteCertificate _ _ => true
  | _ => false

/-- Whether a cleaner call is a thing deletion. -/
def isDeleteThingAction : CleanAction → Bool
  | CleanAction.deleteThing _ => true
  | _ => false

/-- The calls issued before the first certificate deletion of the sequence. -/
def callsBeforeDeleteCert (acts : List CleanAction) : List CleanAction :=
  acts.takeWhile (fun a => !(isDeleteCertAction a))

/-- The calls issued before the first thing deletion of the sequence. -/
def callsBeforeDeleteThing (acts : List CleanAction) : List CleanAction :=
  acts.takeWhile (fun a => !(isDeleteThingAction a))

/-- Nothing is attached to the certificate: no thing and no policy. -/
def certClear (reg : IotRegistry) (certArn : String) : Prop :=
  get_certificate_things reg certArn = [] ∧ list_attached_policies reg certArn = []

/-- No certificate is attached to the thing. -/
def thingClear (reg : IotRegistry) (thingName : String) : Prop :=
  get_thing_principals reg thingName = []

/-- The certificate-deletion selection of the confirmed cleaner run
(cleanup.py lines 146-150): walk the concatenation of the orphaned and the
inactive findings and delete a certificate only when the guard
cert-not-in-orphaned-or-cert-not-in-inactive holds for it. -/
def certsDeleted (reg : IotRegistry) : List IotCert :=
  let orphaned := find_orphaned_certificates reg
  let inactive := find_inactive_certificates reg
  (orphaned ++ inactive).filter
    (fun c => !(orphaned.contains c) || !(inactive.contains c))

/-- The thing-deletion selection of the confirmed cleaner run (lines
142-144): every orphaned thing. -/
def thingsDeleted (reg : IotRegistry) : List String :=
  find_orphaned_things reg

/-! ## The pre-provisioning hook (pre_provisioning_hook.py) -/

/-- Registry calls the hook can issue, with their arguments. -/
inductive HookCall
  | describeThing (name : String)
  | listThingPrincipals (name : String)
  | detachThingPrincipal (name principal : String)
  | listAttachedPolicies (principal : String)
  | detachPolicy (policyName principal : String)
  | updateCertificate (certId : String)
  | deleteCertificate (certId : String)
  | deleteThing (name : String)
deriving DecidableEq

/-- Outcome of one registry call: listed items on success, or a ClientError
with its error code. -/
inductive ApiResult
  | ok (items : List String)
  | clientError (code : String)
deriving DecidableEq

/-- The registry as a response oracle for the hook's calls. -/
def ApiOracle : Type := HookCall → ApiResult

/-- Python principal.split with slash, keeping empty segments. -/
def splitSlash : List Char → List (List Char)
  | [] => [[]]
  | d :: ds =>
    let rest := splitSlash ds
    if d == '/' then [] :: rest
    else
      match rest with
      | [] => [[d]]
      | r :: rs => (d :: r) :: rs

/-- Certificate id extracted from a principal arn (line 58): the last
slash-separated segment. -/
def certIdOfArn (arn : String) : String :=
  String.mk ((splitSlash arn.toList).getLastD [])

/-- The policy-detach loop inside its try block (lines 70-71): detach each
listed policy in turn, stopping at the first ClientError. -/
def detachPolicyLoop (api : ApiOracle) (principal : String) : List String → List HookCall
  | [] => []
  | p :: ps =>
    HookCall.detachPolicy p principal ::
    (match api (HookCall.detachPolicy p principal) with
     | ApiResult.clientError _ => []
     | ApiResult.ok _ => detachPolicyLoop api principal ps)

/-- The policy try block (lines 67-73): list attached policies and, when the
listing succeeds, run the detach loop; a ClientError anywhere is swallowed. -/
def detachPoliciesBlock (api : ApiOracle) (principal : String) : List HookCall :=
  HookCall.listAttachedPolicies principal ::
  (match api (HookCall.listAttachedPolicies principal) with
   | ApiResult.clientError _ => []
   | ApiResult.ok pols => detachPolicyLoop api principal pols)

/-- The deactivate-and-delete try block (lines 75-81): set the certificate
INACTIVE and, when that succeeds, delete it; ClientError swallowed. -/
def certDeleteBlock (api : ApiOracle) (certId : String) : List HookCall :=
  HookCall.updateCertificate certId ::
  (match api (HookCall.updateCertificate certId) with
   | ApiResult.clientError _ => []
   | ApiResult.ok _ => [HookCall.deleteCertificate certId])

/-- Per-principal body of the cleanup loop (lines 57-81): detach the principal
from the thing (failure swallowed), run the policy block, run the
deactivate-and-delete block. -/
def principalCleanup (api : ApiOracle) (name principal : String) : List HookCall :=
  HookCall.detachThingPrincipal name principal ::
  (detachPoliciesBlock api principal ++ certDeleteBlock api (certIdOfArn principal))

/-- cleanup_thing (lines 47-88): list the principals (a ClientError leaves the
list empty), clean up each principal, then attempt to delete the thing; every
ClientError is swallowed. -/
def cleanup_thing_calls (api : ApiOracle) (name : String) : List HookCall :=
  HookCall.listThingPrincipals name ::
  ((match api (HookCall.listThingPrincipals name) with
    | ApiResult.clientError _ => []
    | ApiResult.ok principals => (principals.map (principalCleanup api name)).flatten)
   ++ [HookCall.deleteThing name])

/-- handler (lines 17-44): deny when no ThingName parameter is supplied;
otherwise describe the thing: on success clean it up and allow, on
ResourceNotFoundException allow, on any other ClientError deny. Returns the
allowProvisioning flag and the registry calls issued. -/
def handler (api : ApiOracle) (thingNameParam : Option String) : Bool × List HookCall :=
  match thingNameParam with
  | none => (false, [])
  | some name =>
    if name.isEmpty then (false, [])
    else
      match api (HookCall.describeThing name) with
      | ApiResult.ok _ =>
          (true, HookCall.describeThing name :: cleanup_thing_calls api name)
      | ApiResult.clientError code =>
          if code == "ResourceNotFoundException" then
            (true, [HookCall.describeThing name])
          else
            (false, [HookCall.describeThing name])

/-- Python truthiness of the optional ThingName parameter. -/
def truthyName (s : Option String) : Bool :=
  match s with
  | none => false
  | some v => !(v.isEmpty)

/-! ## Theorems -/

/-- C2: when the local ProvisioningConfig file already exists, the
orchestrator run returns success immediately and performs no registry or
broker interaction at all — its effect list is empty, so in particular there
is no key/CSR generation, no issuance exchange and no registration exchange
(zero publishes) — and the process exits 0. -/
theorem c2_existing_config_short_circuit (env : ProvisionEnv)
    (h : env.configExists = true) :
    provision_device env = (ProvResult.ok true, []) ∧ mainExitCode env = 0 := by
  constructor
  · simp [provision_device, h]
  · simp [mainExitCode, provision_device, h]

/-- A fully populated environment whose config file is already present. -/
def envConfigured : ProvisionEnv :=
  { configExists := true, claimConfigExists := true,
    endpoint := "example-ats.iot.us-west-2.amazonaws.com",
    templateName := "edge-ai-template", serial := "ABC123", mac := "aabbccddeeff",
    certOutcome := CertOutcome.timedOut, regOutcome := RegOutcome.timedOut }

/-- Witness for C2 at a concrete environment with the config present. -/
theorem c2_existing_config_short_circuit_witness :
    provision_device envConfigured = (ProvResult.ok true, []) ∧
    mainExitCode envConfigured = 0 :=
  c2_existing_config_short_circuit envConfigured rfl

/-- C4 counterexample: the write sequence of the final persistence step
leaves config.json half-written at an intermediate point (right after the
in-place opening truncation), refuting the claimed never-half-written
atomicity. -/
theorem c4_atomic_write_counterexample :
    neverHalfWrittenAt configPath configWriteSteps = false := by decide

/-- C4 amended: the final persistence step writes config.json directly in
place — no rename is involved — so immediately after the opening truncation
the file at the config path is half-written; only after the full sequence is
it complete. -/
theorem c4_in_place_config_write :
    configWriteSteps.countP (fun op => isRenameStep op) = 0 ∧
    viewAfter configPath FileView.absent (configWriteSteps.take 1) = FileView.halfWritten ∧
    viewAfter configPath FileView.absent configWriteSteps = FileView.complete := by
  decide

/-- A certificate that is simultaneously orphaned (attached to nothing) and
inactive. -/
def orphanInactiveCert : IotCert :=
  { certificateId := "cert-1",
    certificateArn := "arn:aws:iot:us-west-2:123456789012:cert/cert-1",
    status := "INACTIVE" }

/-- A registry whose single certificate lands in both findings. -/
def regBothFindings : IotRegistry :=
  { things := [], certs := [orphanInactiveCert], principals := [], policies := [] }

/-- C5: on a registry whose certificate is found both orphaned and inactive,
the confirmed cleaner run deletes it zero times: the deletion-loop guard
evaluates false at both of its occurrences in the concatenated findings. -/
theorem c5_both_findings_never_deleted :
    orphanInactiveCert ∈ find_orphaned_certificates regBothFindings ∧
    orphanInactiveCert ∈ find_inactive_certificates regBothFindings ∧
    certsDeleted regBothFindings = [] := by decide

/-- C9 counterexample: in the action trace of create_certificate_from_csr the
request is published without any preceding wait for broker subscription
acknowledgements — the trace contains no acknowledgement wait at all. -/
theorem c9_no_ack_wait_counterexample :
    publishOnlyAfterAckWait
      (createCertActions "example-ats.iot.us-west-2.amazonaws.com") = false := by
  decide

/-- C9 amended: in both exchanges the request is published only after both
reply-topic subscribe calls have been issued and a fixed 0.5 second sleep has
elapsed (preceded by a fixed 1 second sleep after connecting); no
subscription acknowledgement is ever awaited, and each trace publishes
exactly once. -/
theorem c9_fixed_sleeps_before_publish (endpoint template : String) :
    (createCertActions endpoint).countP (fun a => isAwaitSubAck a) = 0 ∧
    (beforeFirstPublish (createCertActions endpoint)).countP (fun a => isSubscribe a) = 2 ∧
    (beforeFirstPublish (createCertActions endpoint)).getLast? =
      some (MqttAction.sleepMs 500) ∧
    (createCertActions endpoint).countP (fun a => isPublish a) = 1 ∧
    (registerThingActions endpoint template).countP (fun a => isAwaitSubAck a) = 0 ∧
    (beforeFirstPublish (registerThingActions endpoint template)).countP
      (fun a => isSubscribe a) = 2 ∧
    (beforeFirstPublish (registerThingActions endpoint template)).getLast? =
      some (MqttAction.sleepMs 500) ∧
    (registerThingActions endpoint template).countP (fun a => isPublish a) = 1 := by
  refine ⟨rfl, rfl, rfl, rfl, rfl, rfl, rfl, rfl⟩

/-- C10: with no usable ThingName parameter (missing or empty) the guard
denies provisioning and issues no registry call at all. -/
theorem c10_missing_thing_name (api : ApiOracle) (p : Option String)
    (h : truthyName p = false) :
    handler api p = (false, []) := by
  cases p with
  | none => rfl
  | some v =>
    have hv : v.isEmpty = true := by simpa [truthyName] using h
    simp [handler, hv]

/-- An oracle failing every call with a non-not-found ClientError. -/
def denyAllOracle : ApiOracle := fun _ => ApiResult.clientError "InternalException"

/-- Witness for C10 at the empty ThingName. -/
theorem c10_missing_thing_name_witness :
    truthyName (some "") = false ∧ handler denyAllOracle (some "") = (false, []) :=
  ⟨rfl, c10_missing_thing_name denyAllOracle (some "") rfl⟩

/-- C1: one correlated exchange returns exactly one of the three outcomes: a
reply delivered within the deadline on the accepted topic yields its decoded
payload, a reply delivered within the deadline on the rejected topic yields a
rejection carrying the extracted reason, and no delivery within 30 seconds
yields the timeout failure; moreover the blocking wait never exceeds the 30
second deadline. Parametrised over the request topic, covering both
create_certificate_from_csr and register_thing. -/
theorem c1_correlated_exchange (base : String) (reply : Option Delivery)
    (hacc : strContains (acceptedTopic base) "/accepted" = true)
    (hmix : strContains (rejectedTopic base) "/accepted" = false)
    (hrej : strContains (rejectedTopic base) "/rejected" = true) :
    waitDuration reply ≤ 30 ∧
    (reply = none → exchangeOutcome reply = ExchResult.errTimeout) ∧
    (∀ d, reply = some d → 30 ≤ d.time →
      exchangeOutcome reply = ExchResult.errTimeout) ∧
    (∀ d p, reply = some d → d.time < 30 → d.topic = acceptedTopic base →
      d.decoded = some p → exchangeOutcome reply = ExchResult.ok (some p)) ∧
    (∀ d p, reply = some d → d.time < 30 → d.topic = rejectedTopic base →
      d.decoded = some p →
      exchangeOutcome reply =
        ExchResult.errRejected (Payload.getD p "errorMessage" (pyStr p))) := by
  refine ⟨?_, ?_, ?_, ?_, ?_⟩
  · cases reply with
    | none => simp [waitDuration]
    | some d => simp [waitDuration]
  · intro h
    subst h
    rfl
  · intro d hd ht
    subst hd
    simp [exchangeOutcome, ht]
  · intro d p hd ht htop hdec
    subst hd
    simp [exchangeOutcome, Nat.not_le.mpr ht, onMessage, hdec, htop, hacc, initExchState]
  · intro d p hd ht htop hdec
    subst hd
    simp [exchangeOutcome, Nat.not_le.mpr ht, onMessage, hdec, htop, hmix, hrej,
      initExchState]

/-- A decoded accepted-reply payload. -/
def samplePayload : Payload := ⟨[("certificatePem", "PEM-DATA")]⟩

/-- A delivery on the accepted issuance topic, 3 seconds after the publish. -/
def sampleAcceptedDelivery : Delivery :=
  ⟨3, acceptedTopic csrBaseTopic, some samplePayload⟩

/-- Witness for C1 at a concrete accepted delivery on the issuance topics. -/
theorem c1_correlated_exchange_witness :
    exchangeOutcome (some sampleAcceptedDelivery) = ExchResult.ok (some samplePayload) ∧
    waitDuration (some sampleAcceptedDelivery) ≤ 30 := by
  have h := c1_correlated_exchange csrBaseTopic (some sampleAcceptedDelivery)
    (by decide) (by decide) (by decide)
  exact ⟨h.2.2.2.1 sampleAcceptedDelivery samplePayload rfl (by decide) rfl rfl, h.1⟩

/-- The config path and the certificate path differ. -/
theorem config_ne_cert_path : configPath ≠ certPath := by decide

/-- C3: whenever certificate issuance or registration fails (rejection,
timeout or transport failure), the run ends with an uncaught exception, the
process exits 1 and the ProvisioningConfig file is never written. -/
theorem c3_failed_exchange_no_config (env : ProvisionEnv)
    (hc : env.configExists = false) (hcc : env.claimConfigExists = true)
    (hfail : env.certOutcome.isAccepted = false ∨ env.regOutcome.isAccepted = false) :
    (∃ m, (provision_device env).1 = ProvResult.exn m) ∧
    mainExitCode env = 1 ∧
    ProvEffect.writeFile configPath ∉ (provision_device env).2 := by
  cases env with
  | mk ce cce ep tn sn mc co ro =>
    cases co <;> cases ro <;>
      simp_all [provision_device, mainExitCode, CertOutcome.isAccepted,
        RegOutcome.isAccepted, config_ne_cert_path]

/-- An environment in which registration times out after issuance succeeded. -/
def envRegTimedOut : ProvisionEnv :=
  { configExists := false, claimConfigExists := true,
    endpoint := "example-ats.iot.us-west-2.amazonaws.com",
    templateName := "edge-ai-template", serial := "ABC123", mac := "aabbccddeeff",
    certOutcome := CertOutcome.accepted "PEM" "cert-1" "tok-1",
    regOutcome := RegOutcome.timedOut }

/-- Witness for C3 at the concrete registration-timeout environment. -/
theorem c3_failed_exchange_no_config_witness :
    mainExitCode envRegTimedOut = 1 ∧
    ProvEffect.writeFile configPath ∉ (provision_device envRegTimedOut).2 := by
  have h := c3_failed_exchange_no_config envRegTimedOut rfl rfl (Or.inr rfl)
  exact ⟨h.2.1, h.2.2⟩

/-- C6: a thing of the managed type is reported orphaned exactly when it has
zero attached certificates, and a certificate is reported orphaned exactly
when it has zero attached things. -/
theorem c6_orphan_detection (reg : IotRegistry) :
    (∀ t, t ∈ reg.things →
      (t ∈ find_orphaned_things reg ↔ get_thing_principals reg t = [])) ∧
    (∀ c, c ∈ reg.certs →
      (c ∈ find_orphaned_certificates reg ↔
        get_certificate_things reg c.certificateArn = [])) := by
  constructor
  · intro t ht
    simp [find_orphaned_things, List.mem_filter, ht, List.isEmpty_iff]
  · intro c hc
    simp [find_orphaned_certificates, List.mem_filter, hc, List.isEmpty_iff]

/-- A registry with one orphaned thing and one orphaned certificate. -/
def regOrphans : IotRegistry :=
  { things := ["edge-ai-AAA"],
    certs := [⟨"cert-9", "arn:cert-9", "ACTIVE"⟩],
    principals := [], policies := [] }

/-- Witness for C6 on the concrete orphans-only registry. -/
theorem c6_orphan_detection_witness :
    "edge-ai-AAA" ∈ find_orphaned_things regOrphans ∧
    (⟨"cert-9", "arn:cert-9", "ACTIVE"⟩ : IotCert) ∈
      find_orphaned_certificates regOrphans := by
  have h := c6_orphan_detection regOrphans
  exact ⟨(h.1 "edge-ai-AAA" (by decide)).mpr (by decide),
         (h.2 ⟨"cert-9", "arn:cert-9", "ACTIVE"⟩ (by decide)).mpr (by decide)⟩

/-- C8: with a usable ThingName, the guard allows provisioning whenever the
existence lookup succeeds (after attempting the best-effort cleanup,
including the thing deletion and the detachment of every listed principal,
whatever the cleanup call outcomes) or fails with not-found, and denies
provisioning on any other lookup error; the decision depends only on the
lookup outcome, not on any cleanup outcome. -/
theorem c8_guard_decision (api : ApiOracle) (name : String)
    (hname : name.isEmpty = false) :
    (∀ items, api (HookCall.describeThing name) = ApiResult.ok items →
      (handler api (some name)).1 = true ∧
      HookCall.deleteThing name ∈ (handler api (some name)).2) ∧
    (api (HookCall.describeThing name) =
        ApiResult.clientError "ResourceNotFoundException" →
      handler api (some name) = (true, [HookCall.describeThing name])) ∧
    (∀ code, code ≠ "ResourceNotFoundException" →
      api (HookCall.describeThing name) = ApiResult.clientError code →
      handler api (some name) = (false, [HookCall.describeThing name])) ∧
    (∀ items principals, api (HookCall.describeThing name) = ApiResult.ok items →
      api (HookCall.listThingPrincipals name) = ApiResult.ok principals →
      ∀ arn, arn ∈ principals →
        HookCall.detachThingPrincipal name arn ∈ (handler api (some name)).2) ∧
    (∀ api2 : ApiOracle,
      api2 (HookCall.describeThing name) = api (HookCall.describeThing name) →
      (handler api2 (some name)).1 = (handler api (some name)).1) := by
  refine ⟨?_, ?_, ?_, ?_, ?_⟩
  · intro items hok
    constructor
    · simp [handler, hname, hok]
    · have hred : (handler api (some name)).2 =
          HookCall.describeThing name :: cleanup_thing_calls api name := by
        simp [handler, hname, hok]
      rw [hred, cleanup_thing_calls]
      cases api (HookCall.listThingPrincipals name) <;> simp
  · intro hnf
    simp [handler, hname, hnf]
  · intro code hne herr
    simp [handler, hname, herr, hne]
  · intro items principals hok hlist arn harn
    have hred : (handler api (some name)).2 =
        HookCall.describeThing name :: cleanup_thing_calls api name := by
      simp [handler, hname, hok]
    have hred2 : cleanup_thing_calls api name =
        HookCall.listThingPrincipals name ::
        ((principals.map (principalCleanup api name)).flatten ++
          [HookCall.deleteThing name]) := by
      simp [cleanup_thing_calls, hlist]
    have hmem : HookCall.detachThingPrincipal name arn ∈
        (principals.map (principalCleanup api name)).flatten := by
      rw [List.mem_flatten]
      exact ⟨principalCleanup api name arn, List.mem_map_of_mem _ harn,
        by simp [principalCleanup]⟩
    rw [hred, hred2]
    exact List.mem_cons_of_mem _ (List.mem_cons_of_mem _ (List.mem_append_left _ hmem))
  · intro api2 h2
    cases hd : api (HookCall.describeThing name) with
    | ok items =>
      rw [hd] at h2
      simp [handler, hname, hd, h2]
    | clientError code =>
      rw [hd] at h2
      simp [handler, hname, hd, h2]

/-- An oracle where the thing exists and every cleanup call fails with a
ClientError. -/
def flakyOracle : ApiOracle := fun c =>
  match c with
  | HookCall.describeThing _ => ApiResult.ok []
  | HookCall.listThingPrincipals _ =>
      ApiResult.ok ["arn:aws:iot:us-west-2:123456789012:cert/deadbeef"]
  | _ => ApiResult.clientError "InternalException"

/-- Witness for C8: the guard still allows provisioning, after attempting the
cleanup, when every cleanup step fails. -/
theorem c8_guard_decision_witness :
    (handler flakyOracle (some "edge-ai-AAA")).1 = true ∧
    HookCall.deleteThing "edge-ai-AAA" ∈ (handler flakyOracle (some "edge-ai-AAA")).2 ∧
    HookCall.detachThingPrincipal "edge-ai-AAA"
        "arn:aws:iot:us-west-2:123456789012:cert/deadbeef" ∈
      (handler flakyOracle (some "edge-ai-AAA")).2 := by
  have h := c8_guard_decision flakyOracle "edge-ai-AAA" rfl
  refine ⟨(h.1 [] rfl).1, (h.1 [] rfl).2, ?_⟩
  exact h.2.2.2.1 [] ["arn:aws:iot:us-west-2:123456789012:cert/deadbeef"] rfl rfl
    _ (by decide)

/-- Running an appended call sequence runs the two parts in turn. -/
theorem runClean_append (reg : IotRegistry) (xs ys : List CleanAction) :
    runClean reg (xs ++ ys) = runClean (runClean reg xs) ys := by
  simp [runClean, List.foldl_append]

/-- Policy detaches leave the thing-certificate attachments unchanged. -/
theorem policyDetaches_keep_principals (ps : List String) (arn : String)
    (reg : IotRegistry) :
    (runClean reg (ps.map (fun p => CleanAction.detachPolicy p arn))).principals
      = reg.principals := by
  induction ps generalizing reg with
  | nil => rfl
  | cons p ps ih =>
    rw [List.map_cons]
    show (runClean (applyClean reg (CleanAction.detachPolicy p arn))
        (ps.map (fun p => CleanAction.detachPolicy p arn))).principals = reg.principals
    rw [ih]
    rfl

/-- Principal detaches leave the policy attachments unchanged. -/
theorem thingDetaches_keep_policies (ts : List String) (arn : String)
    (reg : IotRegistry) :
    (runClean reg (ts.map (fun t => CleanAction.detachThingPrincipal t arn))).policies
      = reg.policies := by
  induction ts generalizing reg with
  | nil => rfl
  | cons t ts ih =>
    rw [List.map_cons]
    show (runClean (applyClean reg (CleanAction.detachThingPrincipal t arn))
        (ts.map (fun t => CleanAction.detachThingPrincipal t arn))).policies = reg.policies
    rw [ih]
    rfl

/-- After detaching the certificate from every thing it could be attached to,
nothing is attached to it any more. -/
theorem detach_all_things_of_cert (ts : List String) (arn : String)
    (reg : IotRegistry)
    (h : ∀ pr ∈ reg.principals, pr.2 = arn → pr.1 ∈ ts) :
    get_certificate_things
      (runClean reg (ts.map (fun t => CleanAction.detachThingPrincipal t arn))) arn
      = [] := by
  induction ts generalizing reg with
  | nil =>
    rw [List.eq_nil_iff_forall_not_mem]
    intro x hx
    simp only [List.map_nil, runClean, List.foldl_nil, get_certificate_things,
      List.mem_map, List.mem_filter] at hx
    obtain ⟨pr, ⟨hmem, harn⟩, _⟩ := hx
    exact List.not_mem_nil x (by simpa using h pr hmem (by simpa using harn))
  | cons t ts ih =>
    rw [List.map_cons]
    show get_certificate_things
      (runClean (applyClean reg (CleanAction.detachThingPrincipal t arn))
        (ts.map (fun t => CleanAction.detachThingPrincipal t arn))) arn = []
    apply ih
    intro pr hpr harn
    simp only [applyClean, List.mem_filter] at hpr
    obtain ⟨hmem, hcond⟩ := hpr
    rcases List.mem_cons.mp (h pr hmem harn) with h2 | h2
    · exfalso
      simp [h2, harn] at hcond
    · exact h2

/-- After detaching every policy that could be attached to the certificate,
no policy is attached to it any more. -/
theorem detach_all_policies_of_cert (ps : List String) (arn : String)
    (reg : IotRegistry)
    (h : ∀ pr ∈ reg.policies, pr.2 = arn → pr.1 ∈ ps) :
    list_attached_policies
      (runClean reg (ps.map (fun p => CleanAction.detachPolicy p arn))) arn = [] := by
  induction ps generalizing reg with
  | nil =>
    rw [List.eq_nil_iff_forall_not_mem]
    intro x hx
    simp only [List.map_nil, runClean, List.foldl_nil, list_attached_policies,
      List.mem_map, List.mem_filter] at hx
    obtain ⟨pr, ⟨hmem, harn⟩, _⟩ := hx
    exact List.not_mem_nil x (by simpa using h pr hmem (by simpa using harn))
  | cons p ps ih =>
    rw [List.map_cons]
    show list_attached_policies
      (runClean (applyClean reg (CleanAction.detachPolicy p arn))
        (ps.map (fun p => CleanAction.detachPolicy p arn))) arn = []
    apply ih
    intro pr hpr harn
    simp only [applyClean, List.mem_filter] at hpr
    obtain ⟨hmem, hcond⟩ := hpr
    rcases List.mem_cons.mp (h pr hmem harn) with h2 | h2
    · exfalso
      simp [h2, harn] at hcond
    · exact h2

/-- After detaching from the thing every certificate that could be attached
to it, the thing has no attached certificate any more. -/
theorem detach_all_certs_of_thing (as : List String) (name : String)
    (reg : IotRegistry)
    (h : ∀ pr ∈ reg.principals, pr.1 = name → pr.2 ∈ as) :
    get_thing_principals
      (runClean reg (as.map (fun a => CleanAction.detachThingPrincipal name a))) name
      = [] := by
  induction as generalizing reg with
  | nil =>
    rw [List.eq_nil_iff_forall_not_mem]
    intro x hx
    simp only [List.map_nil, runClean, List.foldl_nil, get_thing_principals,
      List.mem_map, List.mem_filter] at hx
    obtain ⟨pr, ⟨hmem, hname⟩, _⟩ := hx
    exact List.not_mem_nil x (by simpa using h pr hmem (by simpa using hname))
  | cons a as ih =>
    rw [List.map_cons]
    show get_thing_principals
      (runClean (applyClean reg (CleanAction.detachThingPrincipal name a))
        (as.map (fun a => CleanAction.detachThingPrincipal name a))) name = []
    apply ih
    intro pr hpr hname
    simp only [applyClean, List.mem_filter] at hpr
    obtain ⟨hmem, hcond⟩ := hpr
    rcases List.mem_cons.mp (h pr hmem hname) with h2 | h2
    · exfalso
      simp [h2, hname] at hcond
    · exact h2

/-- The attached-thing view depends only on the attachment table. -/
theorem get_certificate_things_congr {reg1 reg2 : IotRegistry}
    (h : reg1.principals = reg2.principals) (arn : String) :
    get_certificate_things reg1 arn = get_certificate_things reg2 arn := by
  simp [get_certificate_things, h]

/-- The attached-policy view depends only on the policy table. -/
theorem list_attached_policies_congr {reg1 reg2 : IotRegistry}
    (h : reg1.policies = reg2.policies) (arn : String) :
    list_attached_policies reg1 arn = list_attached_policies reg2 arn := by
  simp [list_attached_policies, h]

/-- takeWhile walks past a first part all of whose elements satisfy the
test. -/
theorem takeWhile_append_of_all {α : Type} (p : α → Bool) (l1 l2 : List α)
    (h : ∀ a ∈ l1, p a = true) :
    (l1 ++ l2).takeWhile p = l1 ++ l2.takeWhile p := by
  induction l1 with
  | nil => rfl
  | cons a l ih =>
    rw [List.cons_append, List.takeWhile_cons, h a (List.mem_cons_self a l),
      ih (fun b hb => h b (List.mem_cons_of_mem a hb))]
    simp

/-- The calls of delete_certificate before its delete call: both detach
phases and the deactivation. -/
theorem callsBeforeDeleteCert_eq (reg : IotRegistry) (cid arn : String) :
    callsBeforeDeleteCert (delete_certificate_actions reg cid arn) =
      ((get_certificate_things reg arn).map
        (fun t => CleanAction.detachThingPrincipal t arn))
      ++ (((list_attached_policies reg arn).map
        (fun p => CleanAction.detachPolicy p arn))
      ++ [CleanAction.updateCertificateStatus cid "INACTIVE"]) := by
  have hsplit : delete_certificate_actions reg cid arn =
      (((get_certificate_things reg arn).map
        (fun t => CleanAction.detachThingPrincipal t arn))
      ++ (((list_attached_policies reg arn).map
        (fun p => CleanAction.detachPolicy p arn))
      ++ [CleanAction.updateCertificateStatus cid "INACTIVE"]))
      ++ [CleanAction.deleteCertificate cid arn] := by
    simp [delete_certificate_actions]
  rw [callsBeforeDeleteCert, hsplit,
    takeWhile_append_of_all _ _ _ ?_]
  · simp [isDeleteCertAction]
  · intro a ha
    rcases List.mem_append.mp ha with h1 | h1
    · obtain ⟨t, _, rfl⟩ := List.mem_map.mp h1
      rfl
    · rcases List.mem_append.mp h1 with h2 | h2
      · obtain ⟨q, _, rfl⟩ := List.mem_map.mp h2
        rfl
      · rw [List.mem_singleton] at h2
        subst h2
        rfl

/-- The calls of cleanup_thing before its thing-delete call: all the
principal detaches. -/
theorem callsBeforeDeleteThing_eq (reg : IotRegistry) (name : String) :
    callsBeforeDeleteThing (cleanup_thing_actions reg name) =
      (get_thing_principals reg name).map
        (fun a => CleanAction.detachThingPrincipal name a) := by
  rw [callsBeforeDeleteThing, cleanup_thing_actions,
    takeWhile_append_of_all _ _ _ ?_]
  · simp [isDeleteThingAction]
  · intro a ha
    obtain ⟨q, _, rfl⟩ := List.mem_map.mp ha
    rfl

/-- Before delete_certificate issues its delete call, the certificate is
attached to no thing. -/
theorem cert_phase_things_clear (reg : IotRegistry) (cid arn : String) :
    get_certificate_things
      (runClean reg (callsBeforeDeleteCert (delete_certificate_actions reg cid arn)))
      arn = [] := by
  rw [callsBeforeDeleteCert_eq, runClean_append, runClean_append]
  show get_certificate_things
    (runClean (runClean reg ((get_certificate_things reg arn).map
      (fun t => CleanAction.detachThingPrincipal t arn)))
      ((list_attached_policies reg arn).map (fun p => CleanAction.detachPolicy p arn)))
    arn = []
  rw [get_certificate_things_congr (policyDetaches_keep_principals _ _ _) arn]
  apply detach_all_things_of_cert
  intro pr hpr harn
  exact List.mem_map.mpr ⟨pr, List.mem_filter.mpr ⟨hpr, by simp [harn]⟩, rfl⟩

/-- Before delete_certificate issues its delete call, no policy is attached
to the certificate. -/
theorem cert_phase_policies_clear (reg : IotRegistry) (cid arn : String) :
    list_attached_policies
      (runClean reg (callsBeforeDeleteCert (delete_certificate_actions reg cid arn)))
      arn = [] := by
  rw [callsBeforeDeleteCert_eq, runClean_append, runClean_append]
  show list_attached_policies
    (runClean (runClean reg ((get_certificate_things reg arn).map
      (fun t => CleanAction.detachThingPrincipal t arn)))
      ((list_attached_policies reg arn).map (fun p => CleanAction.detachPolicy p arn)))
    arn = []
  apply detach_all_policies_of_cert
  intro pr hpr harn
  rw [thingDetaches_keep_policies] at hpr
  exact List.mem_map.mpr ⟨pr, List.mem_filter.mpr ⟨hpr, by simp [harn]⟩, rfl⟩

/-- Before cleanup_thing issues its delete call, no certificate is attached
to the thing. -/
theorem thing_phase_principals_clear (reg : IotRegistry) (name : String) :
    get_thing_principals
      (runClean reg (callsBeforeDeleteThing (cleanup_thing_actions reg name)))
      name = [] := by
  rw [callsBeforeDeleteThing_eq]
  apply detach_all_certs_of_thing
  intro pr hpr hname
  exact List.mem_map.mpr ⟨pr, List.mem_filter.mpr ⟨hpr, by simp [hname]⟩, rfl⟩

/-- delete_certificate issues exactly one certificate-delete call. -/
theorem delete_certificate_one_delete (reg : IotRegistry) (cid arn : String) :
    (delete_certificate_actions reg cid arn).countP
      (fun a => isDeleteCertAction a) = 1 := by
  simp [delete_certificate_actions, List.countP_append, List.countP_map,
    Function.comp_def, isDeleteCertAction, List.countP_cons]

/-- cleanup_thing issues exactly one thing-delete call. -/
theorem cleanup_thing_one_delete (reg : IotRegistry) (name : String) :
    (cleanup_thing_actions reg name).countP (fun a => isDeleteThingAction a) = 1 := by
  simp [cleanup_thing_actions, List.countP_append, List.countP_map,
    Function.comp_def, isDeleteThingAction, List.countP_cons]

/-- C7: running the calls delete_certificate issues before its delete call
leaves the certificate attached to no thing with no policy attached to it;
running the calls cleanup_thing issues before its delete call leaves the
thing with no attached certificate; and each sequence carries exactly one
delete call, as its final action. -/
theorem c7_deletion_ordering (reg : IotRegistry) (certId certArn thingName : String) :
    certClear (runClean reg
      (callsBeforeDeleteCert (delete_certificate_actions reg certId certArn))) certArn ∧
    thingClear (runClean reg
      (callsBeforeDeleteThing (cleanup_thing_actions reg thingName))) thingName ∧
    (delete_certificate_actions reg certId certArn).countP
      (fun a => isDeleteCertAction a) = 1 ∧
    (cleanup_thing_actions reg thingName).countP
      (fun a => isDeleteThingAction a) = 1 := by
  refine ⟨?_, ?_, ?_, ?_⟩
  · exact ⟨cert_phase_things_clear reg certId certArn,
           cert_phase_policies_clear reg certId certArn⟩
  · exact thing_phase_principals_clear reg thingName
  · exact delete_certificate_one_delete reg certId certArn
  · exact cleanup_thing_one_delete reg thingName

end EdgeAI
